import Mathlib

/-!
Verification of the `arcade_starter` physics core.

This file is a shallow embedding of the physics update-and-collision
subsystem of the repository (src/arcade_starter/physics.py and
src/arcade_starter/simulation.py).  Python floating-point numbers are
modelled by real numbers, so the embedding is stated over `ℝ` and uses
classical decidability of real comparisons (hence the `noncomputable`
markers: the source computes with `math.sqrt`, `math.cos`, `math.sin`).
Each definition mirrors the corresponding source function statement by
statement; the per-tick integrator is split into named stages
(`integrateStep`, `floorStep`, `wallStep`, `clampStep`) that chain in
exactly the order of the source lines.
-/

namespace ArcadeStarter

/- Constants from src/arcade_starter/constants.py. -/

def BALL_RADIUS : ℝ := 16
def OBJECT_INITIAL_SPEED_X : ℝ := 100
def OBJECT_INITIAL_ANGULAR_SPEED : ℝ := 500
def GRAVITY : ℝ := -980
def OBJECT_MASS : ℝ := 1
def OBJECT_ELASTICITY : ℝ := 0.5
def FRICTION_COEFFICIENT : ℝ := 0.1
def BAR_WIDTH : ℝ := 700
def BAR_HEIGHT : ℝ := 16
def BAR_MASS : ℝ := 1
def BAR_SPEED : ℝ := 400

/-- Python's `math.radians`. -/
noncomputable def radians (d : ℝ) : ℝ := d * Real.pi / 180

/-- State of a `PhysicsObject` together with its `arcade.Sprite` fields
(`center_x`, `center_y`, `angle`, `change_angle`, `width`, `height`).
The per-object `collision_contact` field set in `PhysicsObject.__init__`
is carried here; no operation in this file reads it, mirroring the fact
that no code in the repository ever consults it. -/
@[ext] structure PhysicsObject where
  center_x : ℝ
  center_y : ℝ
  angle : ℝ
  change_angle : ℝ
  width : ℝ
  height : ℝ
  update_flag : Bool
  mass : ℝ
  velocity_x : ℝ
  acceleration_x : ℝ
  velocity_y : ℝ
  acceleration_y : ℝ
  collision_contact : Bool

/-- State of a `PlayerController` together with its sprite fields. -/
@[ext] structure PlayerController where
  center_x : ℝ
  center_y : ℝ
  angle : ℝ
  change_angle : ℝ
  width : ℝ
  height : ℝ
  update_flag : Bool
  mass : ℝ
  angular_speed : ℝ

/-- Intermediate state of `PhysicsObject.update_physics`: the object's
fields plus the local variables `new_x`, `new_y` of the Python function. -/
@[ext] structure MidState where
  obj : PhysicsObject
  new_x : ℝ
  new_y : ℝ

/-- Lines 37-49 of physics.py: velocity integration under acceleration,
angle advance, and the provisional position `new_x`, `new_y`. -/
def integrateStep (dt : ℝ) (s : PhysicsObject) : MidState :=
  let vx := s.velocity_x + s.acceleration_x * dt
  let dx := vx * dt
  let vy := s.velocity_y + s.acceleration_y * dt
  let dy := vy * dt
  let ang := s.angle + s.change_angle * dt
  ⟨{ s with velocity_x := vx, velocity_y := vy, angle := ang },
    s.center_x + dx, s.center_y + dy⟩

/-- Lines 51-61 of physics.py: floor bounce, floor friction on
`velocity_x`, and the angular-speed derivation. -/
noncomputable def floorStep (dt : ℝ) (m : MidState) : MidState :=
  let half_w := m.obj.width / 2
  let half_h := m.obj.height / 2
  if m.new_y ≤ half_h then
    let vy := -m.obj.velocity_y * OBJECT_ELASTICITY
    let ny := max half_h m.new_y
    let vx :=
      if m.obj.velocity_x > 0 then
        m.obj.velocity_x - FRICTION_COEFFICIENT * |GRAVITY| * dt
      else
        m.obj.velocity_x + FRICTION_COEFFICIENT * |GRAVITY| * dt
    let ca := vx * 360 / (half_w * Real.pi)
    ⟨{ m.obj with velocity_x := vx, velocity_y := vy, change_angle := ca }, m.new_x, ny⟩
  else m

/-- Lines 63-73 of physics.py: wall bounce, wall friction on
`velocity_y`, and the angular-speed derivation. -/
noncomputable def wallStep (dt world_width : ℝ) (m : MidState) : MidState :=
  let half_w := m.obj.width / 2
  if m.new_x ≤ half_w ∨ m.new_x ≥ world_width - half_w then
    let vx := -m.obj.velocity_x
    let nx := max half_w (min (world_width - half_w) m.new_x)
    let vy :=
      if m.obj.velocity_y > 0 then
        m.obj.velocity_y - FRICTION_COEFFICIENT * m.obj.velocity_y * dt
      else
        m.obj.velocity_y + FRICTION_COEFFICIENT * m.obj.velocity_y * dt
    let ca := vy * 360 / (half_w * Real.pi)
    ⟨{ m.obj with velocity_x := vx, velocity_y := vy, change_angle := ca }, nx, m.new_y⟩
  else m

/-- Lines 75-77 of physics.py: write back `center_x` and the clamped
`center_y`. -/
noncomputable def clampStep (world_height : ℝ) (m : MidState) : PhysicsObject :=
  let half_h := m.obj.height / 2
  { m.obj with
      center_x := m.new_x,
      center_y := max half_h (min (world_height - half_h) m.new_y) }

/-- `PhysicsObject.update_physics` (physics.py lines 31-77): the stages
above composed in the order of the source text (floor branch before wall
branch, then the final clamp). -/
noncomputable def updatePhysics (dt world_width world_height : ℝ)
    (s : PhysicsObject) : PhysicsObject :=
  clampStep world_height (wallStep dt world_width (floorStep dt (integrateStep dt s)))

/-- The set of pressed key strings consulted by
`PlayerController.update_movement` ("clockwise", "counter-clockwise"). -/
structure Keys where
  clockwise : Bool
  counter_clockwise : Bool

/-- `PlayerController.update_movement` (physics.py lines 89-98). The
`world_width` argument is accepted and unused, as in the source. -/
def updateMovement (dt : ℝ) (keys : Keys) (world_width : ℝ)
    (p : PlayerController) : PlayerController :=
  let ca := ((if keys.clockwise then (1 : ℝ) else 0) -
             (if keys.counter_clockwise then (1 : ℝ) else 0)) * p.angular_speed
  { p with change_angle := ca, angle := p.angle + ca * dt }

/-- Intermediate quantities of `PhysicsEngine.handle_collision`
(physics.py lines 119-191): local-frame coordinates, closest point on
the rectangle, pre-normalization local normal and its length, the unit
local normal after the normalize-or-fallback step, and the world-frame
normal. -/
@[ext] structure Contact where
  local_x : ℝ
  local_y : ℝ
  closest_x : ℝ
  closest_y : ℝ
  normal0_x : ℝ
  normal0_y : ℝ
  normal_length : ℝ
  unit_x : ℝ
  unit_y : ℝ
  world_x : ℝ
  world_y : ℝ

/-- Geometry part of `PhysicsEngine.handle_collision` (physics.py lines
119-191). The division by `normal_length` is executed only under the
`normal_length > 0` guard; otherwise the axis-aligned fallback normal is
selected by comparing relative penetrations. -/
noncomputable def collisionGeometry (o : PhysicsObject) (c : PlayerController) : Contact :=
  let bar_angle_rad := radians c.angle
  let cos_angle := Real.cos bar_angle_rad
  let sin_angle := Real.sin bar_angle_rad
  let dx := o.center_x - c.center_x
  let dy := o.center_y - c.center_y
  let local_x := dx * cos_angle - dy * sin_angle
  let local_y := dx * sin_angle + dy * cos_angle
  let bar_half_width := c.width / 2
  let bar_half_height := c.height / 2
  let closest_x := max (-bar_half_width) (min bar_half_width local_x)
  let closest_y := max (-bar_half_height) (min bar_half_height local_y)
  let nx := local_x - closest_x
  let ny := local_y - closest_y
  let normal_length := Real.sqrt (nx * nx + ny * ny)
  let u :=
    if normal_length > 0 then
      (nx / normal_length, ny / normal_length)
    else
      if |local_x| / bar_half_width > |local_y| / bar_half_height then
        ((if local_x > 0 then (1 : ℝ) else -1), (0 : ℝ))
      else
        ((0 : ℝ), (if local_y > 0 then (1 : ℝ) else -1))
  let world_x := u.1 * cos_angle + u.2 * sin_angle
  let world_y := -u.1 * sin_angle + u.2 * cos_angle
  ⟨local_x, local_y, closest_x, closest_y, nx, ny, normal_length, u.1, u.2, world_x, world_y⟩

/-- Velocity component of the ball along the world contact normal
(physics.py line 198). -/
noncomputable def velNormal (o : PhysicsObject) (c : PlayerController) : ℝ :=
  o.velocity_x * (collisionGeometry o c).world_x +
    o.velocity_y * (collisionGeometry o c).world_y

/-- Positional de-penetration (physics.py lines 213-218). -/
noncomputable def depenetrate (g : Contact) (circle_radius : ℝ)
    (o1 : PhysicsObject) : PhysicsObject :=
  let penetration_depth := circle_radius - g.normal_length
  if penetration_depth > 0 then
    { o1 with
        center_x := o1.center_x + g.world_x * penetration_depth,
        center_y := o1.center_y + g.world_y * penetration_depth }
  else o1

/-- `PhysicsEngine.handle_collision` (physics.py lines 116-218).  The
engine attribute `self.collision_contact` is modelled as an
`Option Bool`: `none` means the attribute was never assigned, in which
case the read at line 209 (reached only inside the `vel_normal < 0`
branch) raises `AttributeError`, modelled as `Except.error ()`.  The
`dt` argument is accepted and unused, as in the source. -/
noncomputable def handleCollisionE (collision_contact : Option Bool) (dt : ℝ)
    (o : PhysicsObject) (c : PlayerController) : Except Unit PhysicsObject :=
  let g := collisionGeometry o c
  let circle_radius := o.width / 2
  let vel_x := o.velocity_x
  let vel_y := o.velocity_y
  let vel_normal := vel_x * g.world_x + vel_y * g.world_y
  if vel_normal < 0 then
    let vx1 := o.velocity_x - 2 * vel_normal * g.world_x
    let vy1 := o.velocity_y - 2 * vel_normal * g.world_y
    let ca1 := (vel_x * g.unit_y - vel_y * g.unit_x) * 360 / (circle_radius * Real.pi)
    match collision_contact with
    | none => Except.error ()
    | some cc =>
      if cc = false then
        Except.ok (depenetrate g circle_radius
          { o with velocity_x := vx1 * OBJECT_ELASTICITY,
                   velocity_y := vy1 * OBJECT_ELASTICITY, change_angle := ca1 })
      else
        Except.ok (depenetrate g circle_radius
          { o with velocity_x := vx1, velocity_y := vy1, change_angle := ca1 })
  else
    Except.ok (depenetrate g circle_radius o)

/-- State of a `PhysicsEngine` managing one physics object and one
player controller (the configuration the application builds).  The
engine attribute `collision_contact` is `none` until the first
assignment in `PhysicsEngine.update`. -/
structure EngineState where
  collision_contact : Option Bool
  ball : PhysicsObject
  bar : PlayerController

/-- `PhysicsEngine.__init__` (physics.py lines 104-106) followed by
`add_physics_object`/`add_player_controller`: the two managed objects
are stored and `collision_contact` is never assigned. -/
def engineInit (ball : PhysicsObject) (bar : PlayerController) : EngineState :=
  ⟨none, ball, bar⟩

/-- `PhysicsEngine.update` (physics.py lines 220-247) specialised to one
physics object and one player controller.  `overlap` is the result of
the external `arcade` call `collides_with_sprite`, supplied as an
oracle.  On overlap, `handle_collision` runs and both update flags are
set without calling `update_movement`; otherwise the flag is cleared and
both objects are updated independently.  An `AttributeError` escaping
`handle_collision` aborts the update. -/
noncomputable def engineUpdate (e : EngineState) (overlap : Bool) (dt : ℝ)
    (keys : Keys) (world_width world_height : ℝ) : Except Unit EngineState :=
  let ball0 := { e.ball with update_flag := false }
  let bar0 := { e.bar with update_flag := false }
  if overlap then
    match handleCollisionE e.collision_contact dt ball0 bar0 with
    | Except.error u => Except.error u
    | Except.ok b1 =>
      Except.ok ⟨some true, { b1 with update_flag := true },
        { bar0 with update_flag := true }⟩
  else
    Except.ok ⟨some false,
      { updatePhysics dt world_width world_height ball0 with update_flag := true },
      { updateMovement dt keys world_width bar0 with update_flag := true }⟩

/- Embedding of the second integrator,
`PhysicsSimulation.update_physics_object` (simulation.py lines 65-93). -/

/-- State of `PhysicsSimulation` restricted to the fields its integrator
reads and writes. -/
@[ext] structure SimState where
  width : ℝ
  height : ℝ
  center_x : ℝ
  center_y : ℝ
  obj_width : ℝ
  obj_height : ℝ
  velocity_x : ℝ
  velocity_y : ℝ
  gravity : ℝ

/-- Intermediate state of `update_physics_object`: the simulation fields
plus the local variables `new_x`, `new_y`. -/
@[ext] structure SimMid where
  sim : SimState
  new_x : ℝ
  new_y : ℝ

/-- Simulation.py lines 71-79: integration of the provisional position. -/
def simIntegrate (dt : ℝ) (s : SimState) : SimMid :=
  let dx := s.velocity_x * dt
  let vy := s.velocity_y + s.gravity * dt
  let dy := vy * dt
  ⟨{ s with velocity_y := vy }, s.center_x + dx, s.center_y + dy⟩

/-- Simulation.py lines 81-84: wall bounce. -/
noncomputable def simWallStep (m : SimMid) : SimMid :=
  let half_w := m.sim.obj_width / 2
  if m.new_x ≤ half_w ∨ m.new_x ≥ m.sim.width - half_w then
    ⟨{ m.sim with velocity_x := -m.sim.velocity_x },
      max half_w (min (m.sim.width - half_w) m.new_x), m.new_y⟩
  else m

/-- Simulation.py lines 86-89: floor bounce. -/
noncomputable def simFloorStep (m : SimMid) : SimMid :=
  let half_h := m.sim.obj_height / 2
  if m.new_y ≤ half_h then
    ⟨{ m.sim with velocity_y := -0.5 * m.sim.velocity_y },
      m.new_x, max half_h m.new_y⟩
  else m

/-- Simulation.py lines 91-93: write back the clamped position. -/
noncomputable def simClamp (m : SimMid) : SimState :=
  let half_h := m.sim.obj_height / 2
  { m.sim with
      center_x := m.new_x,
      center_y := max half_h (min (m.sim.height - half_h) m.new_y) }

/-- `PhysicsSimulation.update_physics_object` (simulation.py lines
65-93): in this integrator the source text applies the wall branch
before the floor branch. -/
noncomputable def simUpdatePhysicsObject (dt : ℝ) (s : SimState) : SimState :=
  simClamp (simFloorStep (simWallStep (simIntegrate dt s)))

/- Projection helpers used to state properties of `Except`-valued
results without existential quantifiers. -/

/-- Center position of the ball produced by a collision-resolution
result, `none` on an `AttributeError`. -/
def exceptPos : Except Unit PhysicsObject → Option (ℝ × ℝ)
  | Except.ok r => some (r.center_x, r.center_y)
  | Except.error _ => none

/-- Velocity of the ball produced by a collision-resolution result,
`none` on an `AttributeError`. -/
def exceptVel : Except Unit PhysicsObject → Option (ℝ × ℝ)
  | Except.ok r => some (r.velocity_x, r.velocity_y)
  | Except.error _ => none

/-- Orientation state (angle, angular velocity) of the bar after an
engine update, `none` on an `AttributeError`. -/
def exceptBarState : Except Unit EngineState → Option (ℝ × ℝ)
  | Except.ok e => some (e.bar.angle, e.bar.change_angle)
  | Except.error _ => none

/- Field-preservation lemmas for the integrator stages. -/

@[simp] lemma integrateStep_obj_width (dt : ℝ) (s : PhysicsObject) :
    (integrateStep dt s).obj.width = s.width := rfl

@[simp] lemma integrateStep_obj_height (dt : ℝ) (s : PhysicsObject) :
    (integrateStep dt s).obj.height = s.height := rfl

@[simp] lemma floorStep_obj_width (dt : ℝ) (m : MidState) :
    (floorStep dt m).obj.width = m.obj.width := by
  simp only [floorStep]; split_ifs <;> rfl

@[simp] lemma floorStep_obj_height (dt : ℝ) (m : MidState) :
    (floorStep dt m).obj.height = m.obj.height := by
  simp only [floorStep]; split_ifs <;> rfl

@[simp] lemma floorStep_new_x (dt : ℝ) (m : MidState) :
    (floorStep dt m).new_x = m.new_x := by
  simp only [floorStep]; split_ifs <;> rfl

@[simp] lemma wallStep_obj_width (dt ww : ℝ) (m : MidState) :
    (wallStep dt ww m).obj.width = m.obj.width := by
  simp only [wallStep]; split_ifs <;> rfl

@[simp] lemma wallStep_obj_height (dt ww : ℝ) (m : MidState) :
    (wallStep dt ww m).obj.height = m.obj.height := by
  simp only [wallStep]; split_ifs <;> rfl

@[simp] lemma wallStep_new_y (dt ww : ℝ) (m : MidState) :
    (wallStep dt ww m).new_y = m.new_y := by
  simp only [wallStep]; split_ifs <;> rfl

@[simp] lemma clampStep_velocity_y (wh : ℝ) (m : MidState) :
    (clampStep wh m).velocity_y = m.obj.velocity_y := rfl

@[simp] lemma clampStep_velocity_x (wh : ℝ) (m : MidState) :
    (clampStep wh m).velocity_x = m.obj.velocity_x := rfl

lemma wallStep_of_not (dt ww : ℝ) (m : MidState)
    (h : ¬ (m.new_x ≤ m.obj.width / 2 ∨ m.new_x ≥ ww - m.obj.width / 2)) :
    wallStep dt ww m = m := by
  simp only [wallStep]; rw [if_neg h]

lemma depenetrate_velocity_x (g : Contact) (r : ℝ) (o : PhysicsObject) :
    (depenetrate g r o).velocity_x = o.velocity_x := by
  simp only [depenetrate]; split_ifs <;> rfl

lemma depenetrate_velocity_y (g : Contact) (r : ℝ) (o : PhysicsObject) :
    (depenetrate g r o).velocity_y = o.velocity_y := by
  simp only [depenetrate]; split_ifs <;> rfl

/-- With an initialised contact flag, `handle_collision` never raises. -/
lemma handleCollisionE_some_ok (b : Bool) (dt : ℝ) (o : PhysicsObject)
    (c : PlayerController) :
    ∃ r, handleCollisionE (some b) dt o c = Except.ok r := by
  simp only [handleCollisionE]
  split_ifs <;> exact ⟨_, rfl⟩

/-- In the overlap branch of `PhysicsEngine.update`, the bar's
orientation state passes through unchanged: `update_movement` is not
called. -/
lemma engineUpdate_overlap_bar (b : Bool) (dt : ℝ) (keys : Keys)
    (ww wh : ℝ) (ball : PhysicsObject) (bar : PlayerController) :
    exceptBarState (engineUpdate ⟨some b, ball, bar⟩ true dt keys ww wh) =
      some (bar.angle, bar.change_angle) := by
  obtain ⟨r, hr⟩ := handleCollisionE_some_ok b dt
    { ball with update_flag := false } { bar with update_flag := false }
  simp [engineUpdate, hr, exceptBarState]

lemma simWallStep_of_cond (m : SimMid)
    (h : m.new_x ≤ m.sim.obj_width / 2 ∨ m.new_x ≥ m.sim.width - m.sim.obj_width / 2) :
    simWallStep m =
      ⟨{ m.sim with velocity_x := -m.sim.velocity_x },
        max (m.sim.obj_width / 2) (min (m.sim.width - m.sim.obj_width / 2) m.new_x),
        m.new_y⟩ := by
  simp only [simWallStep]; rw [if_pos h]

lemma simWallStep_of_not (m : SimMid)
    (h : ¬ (m.new_x ≤ m.sim.obj_width / 2 ∨ m.new_x ≥ m.sim.width - m.sim.obj_width / 2)) :
    simWallStep m = m := by
  simp only [simWallStep]; rw [if_neg h]

lemma simFloorStep_of_le (m : SimMid) (h : m.new_y ≤ m.sim.obj_height / 2) :
    simFloorStep m =
      ⟨{ m.sim with velocity_y := -0.5 * m.sim.velocity_y },
        m.new_x, max (m.sim.obj_height / 2) m.new_y⟩ := by
  simp only [simFloorStep]; rw [if_pos h]

lemma simFloorStep_of_not (m : SimMid) (h : ¬ m.new_y ≤ m.sim.obj_height / 2) :
    simFloorStep m = m := by
  simp only [simFloorStep]; rw [if_neg h]

/-- The two independent boundary branches of
`PhysicsSimulation.update_physics_object` commute. -/
lemma simWall_simFloor_comm (m : SimMid) :
    simFloorStep (simWallStep m) = simWallStep (simFloorStep m) := by
  by_cases hP : m.new_x ≤ m.sim.obj_width / 2 ∨ m.new_x ≥ m.sim.width - m.sim.obj_width / 2 <;>
    by_cases hQ : m.new_y ≤ m.sim.obj_height / 2
  · rw [simWallStep_of_cond m hP, simFloorStep_of_le _ (by exact hQ),
      simFloorStep_of_le m hQ, simWallStep_of_cond _ (by exact hP)]
  · rw [simWallStep_of_cond m hP, simFloorStep_of_not _ (by exact hQ),
      simFloorStep_of_not m hQ, simWallStep_of_cond _ (by exact hP)]
  · rw [simWallStep_of_not m hP, simFloorStep_of_le m hQ,
      simWallStep_of_not _ (by exact hP)]
  · rw [simWallStep_of_not m hP, simFloorStep_of_not m hQ, simWallStep_of_not m hP]

@[simp] lemma clampStep_center_x (wh : ℝ) (m : MidState) :
    (clampStep wh m).center_x = m.new_x := rfl

lemma wallStep_of_cond (dt ww : ℝ) (m : MidState)
    (h : m.new_x ≤ m.obj.width / 2 ∨ m.new_x ≥ ww - m.obj.width / 2) :
    wallStep dt ww m =
      ⟨{ m.obj with
          velocity_x := -m.obj.velocity_x,
          velocity_y :=
            if m.obj.velocity_y > 0 then
              m.obj.velocity_y - FRICTION_COEFFICIENT * m.obj.velocity_y * dt
            else
              m.obj.velocity_y + FRICTION_COEFFICIENT * m.obj.velocity_y * dt,
          change_angle :=
            (if m.obj.velocity_y > 0 then
              m.obj.velocity_y - FRICTION_COEFFICIENT * m.obj.velocity_y * dt
            else
              m.obj.velocity_y + FRICTION_COEFFICIENT * m.obj.velocity_y * dt) * 360 /
              (m.obj.width / 2 * Real.pi) },
        max (m.obj.width / 2) (min (ww - m.obj.width / 2) m.new_x), m.new_y⟩ := by
  simp only [wallStep]; rw [if_pos h]

/-- C6: in `PhysicsObject.update_physics` the floor policy (vertical
bounce, friction on `velocity_x`, angular-speed derivation) is applied
before the wall policy (horizontal bounce, friction on `velocity_y`,
angular-speed derivation): the update literally equals the
floor-before-wall pipeline.  In
`PhysicsSimulation.update_physics_object` the source text runs the wall
branch first, but its two boundary policies read and write disjoint
state, so the result likewise equals the floor-before-wall composition
for every input, in particular in the corner case where both conditions
hold in the same tick. -/
theorem C6_floor_policy_before_wall_policy (dt ww wh : ℝ) (s : PhysicsObject)
    (t : SimState) :
    updatePhysics dt ww wh s =
      clampStep wh (wallStep dt ww (floorStep dt (integrateStep dt s)))
    ∧ simUpdatePhysicsObject dt t =
      simClamp (simWallStep (simFloorStep (simIntegrate dt t))) :=
  ⟨rfl, by unfold simUpdatePhysicsObject; rw [simWall_simFloor_comm]⟩

/-- C2 (amended): when the ball's sprite and the bar's sprite overlap,
`PhysicsEngine.update` calls `handle_collision` and sets both update
flags, so `PlayerController.update_movement` does not run that tick:
the bar's orientation and angular velocity are returned unchanged,
whatever input intents are held. -/
theorem C2_amended_bar_not_updated_during_contact (b : Bool) (dt : ℝ)
    (keys : Keys) (ww wh : ℝ) (ball : PhysicsObject) (bar : PlayerController) :
    exceptBarState (engineUpdate ⟨some b, ball, bar⟩ true dt keys ww wh) =
      some (bar.angle, bar.change_angle) :=
  engineUpdate_overlap_bar b dt keys ww wh ball bar

/-- C9: for every call to `handle_collision` with an initialised contact
flag, the penetration depth is `radius - normal_length` (the
pre-normalization local-normal length), and the ball's center moves by
exactly that depth along the world contact normal whenever the depth is
positive, and does not move otherwise.  The statement quantifies over
all velocities, so the positional correction is the same whether or not
the approaching-velocity test passed. -/
theorem C9_depenetration_regardless_of_velocity (b : Bool) (dt : ℝ)
    (o : PhysicsObject) (c : PlayerController) :
    exceptPos (handleCollisionE (some b) dt o c) =
      some (o.center_x +
              (if o.width / 2 - (collisionGeometry o c).normal_length > 0 then
                (collisionGeometry o c).world_x *
                  (o.width / 2 - (collisionGeometry o c).normal_length)
              else 0),
            o.center_y +
              (if o.width / 2 - (collisionGeometry o c).normal_length > 0 then
                (collisionGeometry o c).world_y *
                  (o.width / 2 - (collisionGeometry o c).normal_length)
              else 0)) := by
  simp only [handleCollisionE, depenetrate]
  split_ifs <;> simp [exceptPos]

/-- C3: when the floor contact condition holds after integration and the
vertical velocity `V` at that point is negative, the floor policy sets
the vertical velocity to `-restitution * V` with
restitution `OBJECT_ELASTICITY = 0.5`, and the resulting `y` position of
the full update is at least the half-height (the radius, for the square
ball sprite).  When the wall condition does not also fire in the same
tick, the end-of-update vertical velocity equals `-restitution * V` as
well. -/
theorem C3_floor_bounce_energy (dt ww wh : ℝ) (s : PhysicsObject)
    (hf : (integrateStep dt s).new_y ≤ (integrateStep dt s).obj.height / 2)
    (hv : (integrateStep dt s).obj.velocity_y < 0) :
    OBJECT_ELASTICITY = 0.5
    ∧ (floorStep dt (integrateStep dt s)).obj.velocity_y =
        -OBJECT_ELASTICITY * (integrateStep dt s).obj.velocity_y
    ∧ s.height / 2 ≤ (updatePhysics dt ww wh s).center_y
    ∧ (¬ ((integrateStep dt s).new_x ≤ s.width / 2 ∨
          (integrateStep dt s).new_x ≥ ww - s.width / 2) →
        (updatePhysics dt ww wh s).velocity_y =
          -OBJECT_ELASTICITY * (integrateStep dt s).obj.velocity_y) := by
  refine ⟨rfl, ?_, ?_, ?_⟩
  · simp only [floorStep]
    rw [if_pos hf]
    ring
  · simp only [updatePhysics, clampStep, wallStep_obj_height, floorStep_obj_height,
      integrateStep_obj_height]
    exact le_max_left _ _
  · intro hw
    have hw2 : ¬ ((floorStep dt (integrateStep dt s)).new_x ≤
        (floorStep dt (integrateStep dt s)).obj.width / 2 ∨
        (floorStep dt (integrateStep dt s)).new_x ≥
          ww - (floorStep dt (integrateStep dt s)).obj.width / 2) := by
      rw [floorStep_new_x, floorStep_obj_width, integrateStep_obj_width]
      exact hw
    simp only [updatePhysics]
    rw [wallStep_of_not dt ww _ hw2, clampStep_velocity_y]
    simp only [floorStep]
    rw [if_pos hf]
    ring

/-- C1 (amended): after every call to `PhysicsObject.update_physics`
with a world at least as large as the sprite, the resulting center lies
in `[half_width, world_width - half_width] ×
[half_height, world_height - half_height]` (for the circular ball,
half-width = half-height = radius).  The collision-resolution path of
`PhysicsEngine.update` performs no such clamping and can move the
center out of these bounds. -/
theorem C1_amended_update_physics_in_bounds (dt ww wh : ℝ) (s : PhysicsObject)
    (hx : s.width / 2 ≤ ww - s.width / 2) (hy : s.height / 2 ≤ wh - s.height / 2) :
    s.width / 2 ≤ (updatePhysics dt ww wh s).center_x ∧
    (updatePhysics dt ww wh s).center_x ≤ ww - s.width / 2 ∧
    s.height / 2 ≤ (updatePhysics dt ww wh s).center_y ∧
    (updatePhysics dt ww wh s).center_y ≤ wh - s.height / 2 := by
  have hyb : s.height / 2 ≤ (updatePhysics dt ww wh s).center_y ∧
      (updatePhysics dt ww wh s).center_y ≤ wh - s.height / 2 := by
    simp only [updatePhysics, clampStep, wallStep_obj_height, floorStep_obj_height,
      integrateStep_obj_height]
    exact ⟨le_max_left _ _, max_le hy (min_le_left _ _)⟩
  have hww : (floorStep dt (integrateStep dt s)).obj.width = s.width := by simp
  have hxb : s.width / 2 ≤ (updatePhysics dt ww wh s).center_x ∧
      (updatePhysics dt ww wh s).center_x ≤ ww - s.width / 2 := by
    by_cases hc : (floorStep dt (integrateStep dt s)).new_x ≤
        (floorStep dt (integrateStep dt s)).obj.width / 2 ∨
        (floorStep dt (integrateStep dt s)).new_x ≥
          ww - (floorStep dt (integrateStep dt s)).obj.width / 2
    · simp only [updatePhysics]
      rw [wallStep_of_cond dt ww _ hc, clampStep_center_x]
      rw [hww]
      exact ⟨le_max_left _ _, max_le hx (min_le_left _ _)⟩
    · simp only [updatePhysics]
      rw [wallStep_of_not dt ww _ hc, clampStep_center_x]
      rw [hww] at hc
      push_neg at hc
      rw [floorStep_new_x] at hc ⊢
      exact ⟨le_of_lt hc.1, le_of_lt hc.2⟩
  exact ⟨hxb.1, hxb.2, hyb.1, hyb.2⟩

/-- C5: in `handle_collision`, when the ball approaches the bar
(`vel_normal < 0`) and the engine's ongoing-contact flag from the
previous tick is initialised, the reflected velocity is scaled by the
restitution `OBJECT_ELASTICITY` exactly when the flag is not set; when
the flag is already set, the reflected velocity is returned without
restitution scaling. -/
theorem C5_restitution_applied_iff_flag_clear (b : Bool) (dt : ℝ)
    (o : PhysicsObject) (c : PlayerController) (h : velNormal o c < 0) :
    exceptVel (handleCollisionE (some b) dt o c) =
      some ((o.velocity_x - 2 * velNormal o c * (collisionGeometry o c).world_x) *
              (if b then 1 else OBJECT_ELASTICITY),
            (o.velocity_y - 2 * velNormal o c * (collisionGeometry o c).world_y) *
              (if b then 1 else OBJECT_ELASTICITY)) := by
  have h' : o.velocity_x * (collisionGeometry o c).world_x +
      o.velocity_y * (collisionGeometry o c).world_y < 0 := h
  simp only [handleCollisionE]
  rw [if_pos h']
  cases b
  · simp [exceptVel, depenetrate_velocity_x, depenetrate_velocity_y, velNormal]
  · simp [exceptVel, depenetrate_velocity_x, depenetrate_velocity_y, velNormal]

/-- When the pre-normalization local normal has zero length, the
normalizing division is skipped and the axis-aligned fallback normal is
selected by comparing relative penetrations. -/
lemma collisionGeometry_unit_of_len_zero (o : PhysicsObject) (c : PlayerController)
    (h0 : (collisionGeometry o c).normal_length = 0) :
    ((collisionGeometry o c).unit_x, (collisionGeometry o c).unit_y) =
      if |(collisionGeometry o c).local_x| / (c.width / 2) >
          |(collisionGeometry o c).local_y| / (c.height / 2) then
        ((if (collisionGeometry o c).local_x > 0 then 1 else -1), (0 : ℝ))
      else
        ((0 : ℝ), (if (collisionGeometry o c).local_y > 0 then 1 else -1)) := by
  have hne : ¬ ((collisionGeometry o c).normal_length > 0) := by
    rw [h0]; exact lt_irrefl 0
  simp only [collisionGeometry] at hne ⊢
  rw [if_neg hne]

/-- C8: on a zero-length pre-normalization local normal (ball center at
the clamped closest point, i.e. center inside the rectangle), the
resolver selects an axis-aligned unit fallback normal by comparing
`|local.x| / half_width` against `|local.y| / half_height`, giving a
unit vector; and with positive bar dimensions and ball radius none of
the divisions of `handle_collision` has a zero denominator (the
division by `normal_length` is guarded by `normal_length > 0`, and the
denominators `half_width`, `half_height` and `radius * pi` are
nonzero). -/
theorem C8_zero_length_normal_fallback (o : PhysicsObject) (c : PlayerController)
    (hw : 0 < c.width) (hh : 0 < c.height) (hr : 0 < o.width)
    (h0 : (collisionGeometry o c).normal_length = 0) :
    (((collisionGeometry o c).unit_x, (collisionGeometry o c).unit_y) =
      if |(collisionGeometry o c).local_x| / (c.width / 2) >
          |(collisionGeometry o c).local_y| / (c.height / 2) then
        ((if (collisionGeometry o c).local_x > 0 then 1 else -1), (0 : ℝ))
      else
        ((0 : ℝ), (if (collisionGeometry o c).local_y > 0 then 1 else -1)))
    ∧ (collisionGeometry o c).unit_x ^ 2 + (collisionGeometry o c).unit_y ^ 2 = 1
    ∧ c.width / 2 ≠ 0 ∧ c.height / 2 ≠ 0 ∧ o.width / 2 * Real.pi ≠ 0 := by
  have key := collisionGeometry_unit_of_len_zero o c h0
  refine ⟨key, ?_, ?_, ?_, ?_⟩
  · have h1 : (collisionGeometry o c).unit_x =
        (if |(collisionGeometry o c).local_x| / (c.width / 2) >
            |(collisionGeometry o c).local_y| / (c.height / 2) then
          ((if (collisionGeometry o c).local_x > 0 then 1 else -1), (0 : ℝ))
        else
          ((0 : ℝ), (if (collisionGeometry o c).local_y > 0 then 1 else -1))).1 := by
      rw [← key]
    have h2 : (collisionGeometry o c).unit_y =
        (if |(collisionGeometry o c).local_x| / (c.width / 2) >
            |(collisionGeometry o c).local_y| / (c.height / 2) then
          ((if (collisionGeometry o c).local_x > 0 then 1 else -1), (0 : ℝ))
        else
          ((0 : ℝ), (if (collisionGeometry o c).local_y > 0 then 1 else -1))).2 := by
      rw [← key]
    rw [h1, h2]
    split_ifs <;> norm_num
  · exact div_ne_zero (ne_of_gt hw) two_ne_zero
  · exact div_ne_zero (ne_of_gt hh) two_ne_zero
  · exact mul_ne_zero (div_ne_zero (ne_of_gt hr) two_ne_zero) Real.pi_ne_zero

/-- C7 (amended): the per-tick update contains no `dt <= 0` guard.  For
`dt = 0`, `PhysicsObject.update_physics` leaves the object unchanged
provided neither the floor nor the wall condition holds and the position
is already inside the clamp range; when a boundary condition holds the
floor branch still rewrites `change_angle` even at `dt = 0`, and for
`dt < 0` the integration formulas run backward and change the state (see
the counterexample), and `update_movement` rewrites the bar's
`change_angle` from the current intents for any `dt`. -/
theorem C7_amended_zero_dt_noop_away_from_bounds (ww wh : ℝ) (s : PhysicsObject)
    (hf : ¬ s.center_y ≤ s.height / 2)
    (hw : ¬ (s.center_x ≤ s.width / 2 ∨ s.center_x ≥ ww - s.width / 2))
    (hy : s.center_y ≤ wh - s.height / 2) :
    updatePhysics 0 ww wh s = s := by
  have hi : integrateStep 0 s = ⟨s, s.center_x, s.center_y⟩ := by
    simp only [integrateStep, mul_zero, add_zero]
  have hfl : floorStep 0 ⟨s, s.center_x, s.center_y⟩ = ⟨s, s.center_x, s.center_y⟩ := by
    simp only [floorStep]
    rw [if_neg hf]
  have hwl : wallStep 0 ww ⟨s, s.center_x, s.center_y⟩ = ⟨s, s.center_x, s.center_y⟩ := by
    simp only [wallStep]
    rw [if_neg hw]
  have h1 : s.height / 2 ≤ s.center_y := le_of_lt (not_le.mp hf)
  show clampStep wh (wallStep 0 ww (floorStep 0 (integrateStep 0 s))) = s
  rw [hi, hfl, hwl]
  simp only [clampStep]
  rw [min_eq_right hy, max_eq_right h1]

/-- With an uninitialised engine contact flag, the read at line 209 of
physics.py is reached exactly in the approaching branch and raises. -/
lemma handleCollisionE_none_error (dt : ℝ) (o : PhysicsObject)
    (c : PlayerController) (h : velNormal o c < 0) :
    handleCollisionE none dt o c = Except.error () := by
  have h' : o.velocity_x * (collisionGeometry o c).world_x +
      o.velocity_y * (collisionGeometry o c).world_y < 0 := h
  simp only [handleCollisionE]
  rw [if_pos h']

/-- C10 (amended): `PhysicsEngine.__init__` initialises only the object
and controller lists, never the engine attribute `collision_contact`
(the per-object field of the same name set in `PhysicsObject.__init__`
is read by no operation).  On the first `update` in which the ball
overlaps the bar, with no prior non-overlapping pair having been
processed, and with the ball approaching along the contact normal
(`vel_normal < 0`), the read of `self.collision_contact` raises
`AttributeError` and the update aborts; when the ball is receding the
guarded branch is skipped, no read occurs, and the collision resolves
(see the counterexample). -/
theorem C10_amended_first_overlap_attribute_error (dt : ℝ) (keys : Keys)
    (ww wh : ℝ) (o : PhysicsObject) (c : PlayerController)
    (h : velNormal o c < 0) :
    (engineInit o c).collision_contact = none
    ∧ engineUpdate (engineInit o c) true dt keys ww wh = Except.error () := by
  refine ⟨rfl, ?_⟩
  have h2 : velNormal { o with update_flag := false }
      { c with update_flag := false } < 0 := h
  simp only [engineUpdate, engineInit]
  rw [if_pos trivial, handleCollisionE_none_error dt _ _ h2]

/- Concrete configurations used by the witnesses and I/O-level
counterexamples.  All sprite states mirror the application's objects: a
32 x 32 ball (radius 16) and a 700 x 16 bar at angle 0. -/

/-- Ball overlapping the bar from below and moving away from it. -/
def ballDown : PhysicsObject :=
  { center_x := 100, center_y := 20, angle := 0, change_angle := 0,
    width := 32, height := 32, update_flag := false, mass := 1,
    velocity_x := 0, acceleration_x := 0, velocity_y := -50,
    acceleration_y := GRAVITY, collision_contact := false }

/-- Ball overlapping the bar from below and approaching it. -/
def ballUp : PhysicsObject := { ballDown with velocity_y := 50 }

/-- Ball whose center lies inside the bar rectangle. -/
def ballInside : PhysicsObject := { ballDown with center_y := 34, velocity_y := 0 }

/-- Ball in free flight in the middle of the playfield. -/
def ballFree : PhysicsObject := { ballDown with center_x := 480, center_y := 300, velocity_y := 0 }

/-- Ball resting at the floor and moving right, about to take a floor
bounce. -/
def ballFloor : PhysicsObject := { ballDown with center_x := 480, center_y := 16, velocity_x := 10 }

/-- Ball at the floor with a small rightward velocity, exhibiting the
friction overshoot. -/
def ballFriction : PhysicsObject :=
  { ballDown with center_x := 480, center_y := 16, velocity_x := 1, velocity_y := 0 }

/-- The player-controlled bar, horizontal, centered at (100, 30). -/
def barMain : PlayerController :=
  { center_x := 100, center_y := 30, angle := 0, change_angle := 0,
    width := 700, height := 16, update_flag := false, mass := 1,
    angular_speed := BAR_SPEED }

lemma sqrt_four : Real.sqrt 4 = 2 := by
  rw [show (4 : ℝ) = 2 ^ 2 by norm_num, Real.sqrt_sq (by norm_num : (0:ℝ) ≤ 2)]

/-- Contact geometry for a ball center 10 below the bar center: closest
point on the boundary is 8 below the bar center, the local normal points
straight down with pre-normalization length 2. -/
lemma geom_below : collisionGeometry ballDown barMain =
    ⟨0, -10, 0, -8, 0, -2, 2, 0, -1, 0, -1⟩ := by
  simp only [collisionGeometry, ballDown, barMain, radians]
  norm_num [min_def, max_def, sqrt_four, Real.cos_zero, Real.sin_zero]

lemma geom_up : collisionGeometry ballUp barMain =
    ⟨0, -10, 0, -8, 0, -2, 2, 0, -1, 0, -1⟩ := by
  rw [show collisionGeometry ballUp barMain = collisionGeometry ballDown barMain from rfl,
    geom_below]

/-- Contact geometry for a ball center inside the bar rectangle: the
pre-normalization normal is zero and the fallback selects the upward
axis normal. -/
lemma geom_inside : collisionGeometry ballInside barMain =
    ⟨0, 4, 0, 4, 0, 0, 0, 0, 1, 0, 1⟩ := by
  simp only [collisionGeometry, ballInside, ballDown, barMain, radians]
  norm_num [min_def, max_def, Real.sqrt_zero, Real.cos_zero, Real.sin_zero]

lemma velNormal_up : velNormal ballUp barMain = -50 := by
  simp only [velNormal]
  rw [geom_up]
  norm_num [ballUp, ballDown]

lemma velNormal_down : velNormal ballDown barMain = 50 := by
  simp only [velNormal]
  rw [geom_below]
  norm_num [ballDown]

/-- Full collision resolution for the receding overlap configuration:
the velocity branch is skipped for any flag value (so the uninitialised
attribute is never read) and the positional correction pushes the ball
out by depth 14 along the downward world normal. -/
lemma hc_down (fl : Option Bool) (dt : ℝ) :
    handleCollisionE fl dt ballDown barMain =
      Except.ok { ballDown with center_y := 6 } := by
  simp only [handleCollisionE, geom_below, depenetrate]
  norm_num [ballDown]

/-- C1 (counterexample): a concrete overlapping tick in which the
collision-resolution path of `PhysicsEngine.update` moves the ball's
center to `y = 6`, strictly below the radius 16, so the position does
not satisfy `position.y ∈ [radius, world_height - radius]` after the
update. -/
theorem C1_counterexample_collision_path_leaves_bounds :
    engineUpdate ⟨some false, ballDown, barMain⟩ true (1/10) ⟨false, false⟩ 960 540 =
      Except.ok ⟨some true, { ballDown with center_y := 6, update_flag := true },
        { barMain with update_flag := true }⟩
    ∧ ¬ (ballDown.width / 2 ≤ (6 : ℝ)) := by
  constructor
  · simp only [engineUpdate]
    rw [if_pos trivial,
      show ({ ballDown with update_flag := false } : PhysicsObject) = ballDown from rfl,
      show ({ barMain with update_flag := false } : PlayerController) = barMain from rfl,
      hc_down (some false) (1/10)]
  · norm_num [ballDown]

/-- C10 (counterexample): a first `PhysicsEngine.update` call on a
freshly constructed engine in which the ball overlaps the bar but
recedes from it (`vel_normal = 50 >= 0`): the guarded branch is skipped,
the uninitialised `collision_contact` attribute is never read, and the
update succeeds with the positional correction applied, instead of
raising `AttributeError`. -/
theorem C10_counterexample_receding_first_overlap_no_error :
    0 ≤ velNormal ballDown barMain
    ∧ engineUpdate (engineInit ballDown barMain) true (1/10) ⟨false, false⟩ 960 540 =
        Except.ok ⟨some true, { ballDown with center_y := 6, update_flag := true },
          { barMain with update_flag := true }⟩ := by
  constructor
  · rw [velNormal_down]; norm_num
  · simp only [engineUpdate, engineInit]
    rw [if_pos trivial,
      show ({ ballDown with update_flag := false } : PhysicsObject) = ballDown from rfl,
      show ({ barMain with update_flag := false } : PlayerController) = barMain from rfl,
      hc_down none (1/10)]

/-- C2 (counterexample): a concrete overlapping tick with the clockwise
intent held: `update_movement` would set the bar's angular velocity and
angle to 400, but the engine update returns the bar orientation
unchanged at (0, 0) — `update_movement` did not run. -/
theorem C2_counterexample_intent_ignored_during_contact :
    exceptBarState (engineUpdate ⟨some false, ballUp, barMain⟩ true 1 ⟨true, false⟩ 960 540) =
      some (0, 0)
    ∧ (updateMovement 1 ⟨true, false⟩ 960 barMain).change_angle = 400
    ∧ (updateMovement 1 ⟨true, false⟩ 960 barMain).angle = 400
    ∧ (0 : ℝ) ≠ 400 := by
  refine ⟨?_, ?_, ?_, by norm_num⟩
  · rw [engineUpdate_overlap_bar false 1 ⟨true, false⟩ 960 540 ballUp barMain]
    norm_num [barMain]
  · norm_num [updateMovement, barMain, BAR_SPEED]
  · norm_num [updateMovement, barMain, BAR_SPEED]

/-- C7 (counterexample): with `dt = -0.1 <= 0` the update is not a
no-op: starting from vertical velocity 0 in mid-air, gravity is
integrated backward and the resulting vertical velocity is 98. -/
theorem C7_counterexample_negative_dt_changes_state :
    (-(1/10) : ℝ) ≤ 0
    ∧ ballFree.velocity_y = 0
    ∧ (updatePhysics (-(1/10)) 960 540 ballFree).velocity_y = 98 := by
  refine ⟨by norm_num, by norm_num [ballFree, ballDown], ?_⟩
  norm_num [updatePhysics, integrateStep, floorStep, wallStep, clampStep,
    ballFree, ballDown, GRAVITY, FRICTION_COEFFICIENT, OBJECT_ELASTICITY,
    min_def, max_def]

/-- C4 (code bug): at a floor-contact tick with `velocity_x = 1` and
`dt = 0.1`, the friction adjustment subtracts
`0.1 * |gravity| * dt = 9.8`, producing `velocity_x = -8.8`: the sign
flips and the magnitude grows from 1 to 8.8, contradicting the friction
monotonicity property. -/
theorem C4_friction_overshoot_at_small_velocity :
    ballFriction.velocity_x = 1
    ∧ (updatePhysics (1/10) 960 540 ballFriction).velocity_x = -44/5
    ∧ (updatePhysics (1/10) 960 540 ballFriction).velocity_x < 0
    ∧ |ballFriction.velocity_x| < |(updatePhysics (1/10) 960 540 ballFriction).velocity_x| := by
  have hG : |GRAVITY| = 980 := by
    simp only [GRAVITY]
    rw [abs_of_nonpos (by norm_num)]
    norm_num
  have hv : (updatePhysics (1/10) 960 540 ballFriction).velocity_x = -44/5 := by
    norm_num [updatePhysics, integrateStep, floorStep, wallStep, clampStep,
      ballFriction, ballDown, GRAVITY, FRICTION_COEFFICIENT, OBJECT_ELASTICITY,
      hG, min_def, max_def]
  refine ⟨by norm_num [ballFriction, ballDown], hv, ?_, ?_⟩
  · rw [hv]; norm_num
  · rw [hv, abs_of_nonpos (by norm_num : (-44 / 5 : ℝ) ≤ 0)]
    norm_num [ballFriction, ballDown]

/-- Witness for the amended C1 bounds theorem at a concrete free-flight
tick. -/
theorem C1_amended_witness :
    ballFree.width / 2 ≤ 960 - ballFree.width / 2
    ∧ ballFree.height / 2 ≤ 540 - ballFree.height / 2
    ∧ (ballFree.width / 2 ≤ (updatePhysics (1/10) 960 540 ballFree).center_x ∧
       (updatePhysics (1/10) 960 540 ballFree).center_x ≤ 960 - ballFree.width / 2 ∧
       ballFree.height / 2 ≤ (updatePhysics (1/10) 960 540 ballFree).center_y ∧
       (updatePhysics (1/10) 960 540 ballFree).center_y ≤ 540 - ballFree.height / 2) :=
  ⟨by norm_num [ballFree, ballDown], by norm_num [ballFree, ballDown],
    C1_amended_update_physics_in_bounds (1/10) 960 540 ballFree
      (by norm_num [ballFree, ballDown]) (by norm_num [ballFree, ballDown])⟩

/-- Witness for the C3 floor-bounce theorem at a concrete bouncing
tick (`V = -148`). -/
theorem C3_witness :
    (integrateStep (1/10) ballFloor).new_y ≤ (integrateStep (1/10) ballFloor).obj.height / 2
    ∧ (integrateStep (1/10) ballFloor).obj.velocity_y < 0
    ∧ (OBJECT_ELASTICITY = 0.5
       ∧ (floorStep (1/10) (integrateStep (1/10) ballFloor)).obj.velocity_y =
           -OBJECT_ELASTICITY * (integrateStep (1/10) ballFloor).obj.velocity_y
       ∧ ballFloor.height / 2 ≤ (updatePhysics (1/10) 960 540 ballFloor).center_y
       ∧ (¬ ((integrateStep (1/10) ballFloor).new_x ≤ ballFloor.width / 2 ∨
             (integrateStep (1/10) ballFloor).new_x ≥ 960 - ballFloor.width / 2) →
           (updatePhysics (1/10) 960 540 ballFloor).velocity_y =
             -OBJECT_ELASTICITY * (integrateStep (1/10) ballFloor).obj.velocity_y)) := by
  have h1 : (integrateStep (1/10) ballFloor).new_y ≤
      (integrateStep (1/10) ballFloor).obj.height / 2 := by
    norm_num [integrateStep, ballFloor, ballDown, GRAVITY]
  have h2 : (integrateStep (1/10) ballFloor).obj.velocity_y < 0 := by
    norm_num [integrateStep, ballFloor, ballDown, GRAVITY]
  exact ⟨h1, h2, C3_floor_bounce_energy (1/10) 960 540 ballFloor h1 h2⟩

/-- Witness for the C5 restitution theorem at a concrete approaching
contact (`vel_normal = -50`) with a clear flag. -/
theorem C5_witness :
    velNormal ballUp barMain < 0
    ∧ exceptVel (handleCollisionE (some false) (1/10) ballUp barMain) =
        some ((ballUp.velocity_x - 2 * velNormal ballUp barMain *
                (collisionGeometry ballUp barMain).world_x) *
                (if false then 1 else OBJECT_ELASTICITY),
              (ballUp.velocity_y - 2 * velNormal ballUp barMain *
                (collisionGeometry ballUp barMain).world_y) *
                (if false then 1 else OBJECT_ELASTICITY)) := by
  have hv : velNormal ballUp barMain < 0 := by rw [velNormal_up]; norm_num
  exact ⟨hv, C5_restitution_applied_iff_flag_clear false (1/10) ballUp barMain hv⟩

/-- Witness for the amended C7 theorem: `dt = 0` in mid-air is a no-op. -/
theorem C7_amended_witness :
    ¬ ballFree.center_y ≤ ballFree.height / 2
    ∧ ¬ (ballFree.center_x ≤ ballFree.width / 2 ∨
         ballFree.center_x ≥ 960 - ballFree.width / 2)
    ∧ ballFree.center_y ≤ 540 - ballFree.height / 2
    ∧ updatePhysics 0 960 540 ballFree = ballFree := by
  have h1 : ¬ ballFree.center_y ≤ ballFree.height / 2 := by
    norm_num [ballFree, ballDown]
  have h2 : ¬ (ballFree.center_x ≤ ballFree.width / 2 ∨
      ballFree.center_x ≥ 960 - ballFree.width / 2) := by
    norm_num [ballFree, ballDown]
  have h3 : ballFree.center_y ≤ 540 - ballFree.height / 2 := by
    norm_num [ballFree, ballDown]
  exact ⟨h1, h2, h3, C7_amended_zero_dt_noop_away_from_bounds 960 540 ballFree h1 h2 h3⟩

/-- Witness for the C8 fallback theorem with the ball center inside the
bar rectangle (zero-length pre-normalization normal). -/
theorem C8_witness :
    0 < barMain.width ∧ 0 < barMain.height ∧ 0 < ballInside.width
    ∧ (collisionGeometry ballInside barMain).normal_length = 0
    ∧ ((((collisionGeometry ballInside barMain).unit_x,
          (collisionGeometry ballInside barMain).unit_y) =
        if |(collisionGeometry ballInside barMain).local_x| / (barMain.width / 2) >
            |(collisionGeometry ballInside barMain).local_y| / (barMain.height / 2) then
          ((if (collisionGeometry ballInside barMain).local_x > 0 then 1 else -1), (0 : ℝ))
        else
          ((0 : ℝ), (if (collisionGeometry ballInside barMain).local_y > 0 then 1 else -1)))
       ∧ (collisionGeometry ballInside barMain).unit_x ^ 2 +
           (collisionGeometry ballInside barMain).unit_y ^ 2 = 1
       ∧ barMain.width / 2 ≠ 0 ∧ barMain.height / 2 ≠ 0
       ∧ ballInside.width / 2 * Real.pi ≠ 0) := by
  have h1 : (0 : ℝ) < barMain.width := by norm_num [barMain]
  have h2 : (0 : ℝ) < barMain.height := by norm_num [barMain]
  have h3 : (0 : ℝ) < ballInside.width := by norm_num [ballInside, ballDown]
  have h0 : (collisionGeometry ballInside barMain).normal_length = 0 := by
    rw [geom_inside]
  exact ⟨h1, h2, h3, h0,
    C8_zero_length_normal_fallback ballInside barMain h1 h2 h3 h0⟩

/-- Witness for the amended C10 theorem: a first overlapping update with
the ball approaching raises the modelled `AttributeError`. -/
theorem C10_amended_witness :
    velNormal ballUp barMain < 0
    ∧ ((engineInit ballUp barMain).collision_contact = none
       ∧ engineUpdate (engineInit ballUp barMain) true (1/10) ⟨false, false⟩ 960 540 =
           Except.error ()) := by
  have hv : velNormal ballUp barMain < 0 := by rw [velNormal_up]; norm_num
  exact ⟨hv, C10_amended_first_overlap_attribute_error (1/10) ⟨false, false⟩ 960 540
    ballUp barMain hv⟩

end ArcadeStarter
